import Mathlib

/-!
Verification of the Google Tasks MCP server (`google_tasks_mcp.py`).

The Python source is shallowly embedded: dictionaries become association
lists over strings, the remote Tasks API and the OAuth vendor library become
explicit environments/parameters, and each tool's pure logic (string
parsing, merging, truncation, report building) is translated function by
function.  All definitions are executable, so concrete behaviours can be
checked by `decide`.
-/

/-! ## Python string primitives (ASCII fragment)

Models of the Python `str` operations the server uses: `in` (substring
test), `replace` (replace every occurrence), `strip` (trim whitespace at
both ends), `lower` (ASCII case folding), and slicing `s[:n]`.
-/

/-- Model of Python `needle in hay` restricted to the head position:
`hasPrefixCL hay needle` is true when `needle` is an initial segment of `hay`. -/
def hasPrefixCL : List Char → List Char → Bool
  | _, [] => true
  | [], _ :: _ => false
  | c :: cs, p :: ps => c == p && hasPrefixCL cs ps

/-- Occurrence of `pat` anywhere in `s` (character lists). -/
def containsCL (pat : List Char) : List Char → Bool
  | [] => pat.isEmpty
  | c :: cs => hasPrefixCL (c :: cs) pat || containsCL pat cs

/-- Model of Python `needle in hay` for strings. -/
def pyContains (hay needle : String) : Bool :=
  containsCL needle.data hay.data

/-- Fuel-driven worker for `pyReplace`; the fuel is the length of the input,
which bounds the number of steps. -/
def replaceGo (p : Char) (ps rep : List Char) : Nat → List Char → List Char
  | _, [] => []
  | 0, l => l
  | fuel + 1, c :: cs =>
    if hasPrefixCL (c :: cs) (p :: ps) then
      rep ++ replaceGo p ps rep fuel (List.drop ps.length cs)
    else
      c :: replaceGo p ps rep fuel cs

/-- Model of Python `s.replace(pat, rep)`: replaces every occurrence of
`pat`, scanning left to right.  (The server never calls `replace` with an
empty pattern; that case is mapped to the identity.) -/
def pyReplace (s pat rep : String) : String :=
  match pat.data with
  | [] => s
  | p :: ps => ⟨replaceGo p ps rep.data s.data.length s.data⟩

/-- The six ASCII whitespace characters stripped by Python `str.strip()`. -/
def pySpace (c : Char) : Bool :=
  c == ' ' || c == '\t' || c == '\n' || c == '\r' || c == '\x0b' || c == '\x0c'

/-- Model of Python `s.strip()` (ASCII whitespace). -/
def pyStrip (s : String) : String :=
  ⟨((s.data.dropWhile pySpace).reverse.dropWhile pySpace).reverse⟩

/-- Model of Python `s.lower()` (ASCII case folding). -/
def pyLower (s : String) : String :=
  ⟨s.data.map Char.toLower⟩

/-- Model of the Python slice `s[:n]` (for `n ≥ 0`). -/
def pySlice (s : String) (n : Nat) : String :=
  ⟨s.data.take n⟩

/-- Concatenation of a list of strings (used to model the `for`-loop string
accumulation patterns of the Python source). -/
def strConcat : List String → String
  | [] => ""
  | s :: ss => s ++ strConcat ss

/-! ## Python dictionaries

Task and task-list records travel through the server as JSON objects whose
values are strings.  They are modelled as association lists with the usual
`d[k]`, `d.get(k, default)`, `d[k] = v` and `d.pop(k, None)` operations;
Python dictionaries have unique keys, which the operations below respect.
-/

/-- A Python dictionary with string keys and string values. -/
abbrev PyDict := List (String × String)

/-- Value stored under key `k`, if any. -/
def dictLookup : PyDict → String → Option String
  | [], _ => none
  | (k0, v0) :: d, k => if k0 = k then some v0 else dictLookup d k

/-- Model of Python `d.get(k, dflt)`. -/
def dictGet (d : PyDict) (k dflt : String) : String :=
  (dictLookup d k).getD dflt

/-- Model of Python `d[k] = v`: overwrite in place if the key exists,
otherwise append the new binding at the end (Python dicts keep insertion
order). -/
def dictSet (d : PyDict) (k v : String) : PyDict :=
  if (dictLookup d k).isSome then
    List.map (fun p => if p.1 = k then (k, v) else p) d
  else
    d ++ [(k, v)]

/-- Model of Python `d.pop(k, None)` (the removal effect). -/
def dictPop (d : PyDict) (k : String) : PyDict :=
  List.filter (fun p => !(p.1 == k)) d

/-! ## Quick-add parsing (`quick_add_task`, lines 827-855)

The tool scans the free text for "tomorrow" / "today" / "next week" (in
that order, against the lowercased text), derives a due date as an offset
from the current local date, and strips the matched phrase.  Dates are
modelled as integer day numbers; `today` is a parameter. -/

/-- Embedding of the parsing logic of `quick_add_task`: returns the title
passed to `create_task` and the due date (`none` = no due date, `some n` =
the day number `n`).  Mirrors the source line by line: the phrase check and
removal happen on `text.lower()`, removal strips the result, and the final
title is stripped once more (`title=text.strip()`). -/
def quickAddParse (today : Int) (text : String) : String × Option Int :=
  if pyContains (pyLower text) "tomorrow" then
    (pyStrip (pyStrip (pyReplace (pyLower text) "tomorrow" "")), some (today + 1))
  else if pyContains (pyLower text) "today" then
    (pyStrip (pyStrip (pyReplace (pyLower text) "today" "")), some today)
  else if pyContains (pyLower text) "next week" then
    (pyStrip (pyStrip (pyReplace (pyLower text) "next week" "")), some (today + 7))
  else
    (pyStrip text, none)

/-! ## Credential store (`GoogleTasksAuth.get_credentials`, lines 189-231)

The OAuth vendor objects are abstracted: a credential is reduced to the
three booleans the control flow inspects (token presence, expiry, presence
of a refresh token) plus an identity tag, and the environment supplies the
outcome of each external effect (token-file parse, refresh call,
client-secret file presence, interactive flow).  The embedding returns the
control-flow outcome together with counts of the effects performed, so
"no refresh call", "exactly one refresh call" and "no token write" are
directly expressible. -/

/-- Abstraction of a `google.oauth2.credentials.Credentials` object: the
fields the server's control flow reads.  `tag` distinguishes credential
identities. -/
structure Cred where
  hasToken : Bool
  expired : Bool
  hasRefreshToken : Bool
  tag : Nat
deriving DecidableEq

/-- Modelled from the vendor library: `Credentials.valid` is "has a token
and it is not expired". -/
def Cred.valid (c : Cred) : Bool := c.hasToken && !c.expired

/-- Environment for one `get_credentials` call: state of the filesystem and
the results the authorization server would give. -/
structure AuthWorld where
  /-- does the token file exist? -/
  tokenFileExists : Bool
  /-- result of parsing the token file (`none` models a parse exception) -/
  parsedCred : Option Cred
  /-- would a refresh call succeed? -/
  refreshOk : Bool
  /-- the credential state after a successful in-place refresh -/
  refreshedCred : Cred
  /-- does the client-secret file exist? -/
  credsFileExists : Bool
  /-- credential produced by the interactive flow -/
  flowCred : Cred

/-- Outcome of `get_credentials`: a credential, or the
`FileNotFoundError` raised when the client-secret file is missing. -/
inductive AuthOutcome where
  | ok (c : Cred)
  | credentialsFileMissing
deriving DecidableEq

/-- Result of a `get_credentials` run: outcome plus counts of external
effects (refresh calls against the authorization server, interactive flow
runs, token-file writes). -/
structure AuthTrace where
  outcome : AuthOutcome
  refreshCalls : Nat
  flowCalls : Nat
  tokenWrites : Nat
deriving DecidableEq

/-- Embedding of `GoogleTasksAuth.get_credentials`.  Mirrors the source:
load the token file (a parse error is logged and treated as no credential);
if the credential is missing or not valid, refresh when it is expired and
carries a refresh token (a refresh failure is logged and the credential
discarded); if still no credential, require the client-secret file (missing
file raises) and run the interactive flow; finally persist the credential
whenever this fallback block ran. -/
def getCredentials (w : AuthWorld) : AuthTrace :=
  let creds0 : Option Cred := if w.tokenFileExists then w.parsedCred else none
  match creds0 with
  | some c =>
    if c.valid then
      { outcome := .ok c, refreshCalls := 0, flowCalls := 0, tokenWrites := 0 }
    else if c.expired && c.hasRefreshToken then
      if w.refreshOk then
        { outcome := .ok w.refreshedCred, refreshCalls := 1, flowCalls := 0, tokenWrites := 1 }
      else if w.credsFileExists then
        { outcome := .ok w.flowCred, refreshCalls := 1, flowCalls := 1, tokenWrites := 1 }
      else
        { outcome := .credentialsFileMissing, refreshCalls := 1, flowCalls := 0, tokenWrites := 0 }
    else if w.credsFileExists then
      { outcome := .ok w.flowCred, refreshCalls := 0, flowCalls := 1, tokenWrites := 1 }
    else
      { outcome := .credentialsFileMissing, refreshCalls := 0, flowCalls := 0, tokenWrites := 0 }
  | none =>
    if w.credsFileExists then
      { outcome := .ok w.flowCred, refreshCalls := 0, flowCalls := 1, tokenWrites := 1 }
    else
      { outcome := .credentialsFileMissing, refreshCalls := 0, flowCalls := 0, tokenWrites := 0 }

/-! ## Task update merge (`GoogleTasksClient.update_task`, lines 370-402,
and the `update_task` tool, lines 728-750)

The client fetches the current record and overlays the update fields onto
it; the tool layer decides which input fields to forward.  Both layers'
truthiness checks are modelled explicitly (`Option` = key presence, `≠ ""`
= Python truthiness of the string value). -/

/-- The `**updates` keyword dictionary received by
`GoogleTasksClient.update_task` (`none` = key absent). -/
structure TaskUpdates where
  title : Option String
  notes : Option String
  status : Option String
  due_date : Option String

/-- The `if 'title' in updates and updates['title']` step. -/
def applyTitle (task : PyDict) (u : TaskUpdates) : PyDict :=
  match u.title with
  | some s => if s ≠ "" then dictSet task "title" s else task
  | none => task

/-- The `if 'notes' in updates and updates['notes']` step. -/
def applyNotes (task : PyDict) (u : TaskUpdates) : PyDict :=
  match u.notes with
  | some s => if s ≠ "" then dictSet task "notes" s else task
  | none => task

/-- The `if 'status' in updates and updates['status']` step. -/
def applyStatus (task : PyDict) (u : TaskUpdates) : PyDict :=
  match u.status with
  | some s => if s ≠ "" then dictSet task "status" s else task
  | none => task

/-- The `if 'due_date' in updates` step: the literal `'clear'` pops the
`due` key, any other truthy value sets `due` to the start-of-day RFC3339
timestamp, a falsy value is ignored. -/
def applyDue (task : PyDict) (u : TaskUpdates) : PyDict :=
  match u.due_date with
  | some s =>
    if s = "clear" then dictPop task "due"
    else if s ≠ "" then dictSet task "due" (s ++ "T00:00:00.000Z")
    else task
  | none => task

/-- Embedding of the merge performed by `GoogleTasksClient.update_task` on
the fetched record before writing it back. -/
def applyTaskUpdates (task : PyDict) (u : TaskUpdates) : PyDict :=
  applyDue (applyStatus (applyNotes (applyTitle task u) u) u) u

/-- The `update_task` tool's input (`none` = field not supplied). -/
structure UpdateToolInput where
  title : Option String
  notes : Option String
  status : Option String
  due_date : Option String

/-- Embedding of the tool layer's forwarding logic (lines 731-739): `title`,
`status` and `due_date` are forwarded only when truthy, while `notes` is
forwarded whenever it `is not None` — including the empty string. -/
def toolLayerUpdates (i : UpdateToolInput) : TaskUpdates :=
  { title := match i.title with
      | some s => if s ≠ "" then some s else none
      | none => none
  , notes := i.notes
  , status := match i.status with
      | some s => if s ≠ "" then some s else none
      | none => none
  , due_date := match i.due_date with
      | some s => if s ≠ "" then some s else none
      | none => none }

/-! ## Due-date timestamps and display (`create_task` lines 316-322,
`format_task` lines 461-468)

`create_task` stores a plain date `d` as the RFC3339 string
`d + "T00:00:00.000Z"`.  `format_task` displays a stored `due` value by
replacing `'Z'` with `'+00:00'`, parsing with `datetime.fromisoformat`, and
formatting with `strftime('%Y-%m-%d')`; a parse failure displays the raw
stored string.  The vendor `datetime` functions are modelled for the shapes
this program produces: a calendar-validated `YYYY-MM-DD` prefix followed by
either nothing or the midnight-UTC time suffix the server writes; any other
shape is a parse failure.  `%Y`/`%m`/`%d` are modelled as zero-padded
4/2/2-digit fields (per the vendor documentation). -/

/-- The decimal digit character for `n` (used for `n < 10`). -/
def digitChar (n : Nat) : Char := Char.ofNat (48 + n)

/-- Rendering of a date as `YYYY-MM-DD` (the `isoformat` /
`strftime('%Y-%m-%d')` shape, zero-padded). -/
def formatYMD (y m d : Nat) : String :=
  ⟨[digitChar (y / 1000 % 10), digitChar (y / 100 % 10),
    digitChar (y / 10 % 10), digitChar (y % 10), '-',
    digitChar (m / 10 % 10), digitChar (m % 10), '-',
    digitChar (d / 10 % 10), digitChar (d % 10)]⟩

/-- Embedding of the `create_task` conversion
`body['due'] = f"{due}T00:00:00.000Z"`. -/
def toDueTimestamp (d : String) : String := d ++ "T00:00:00.000Z"

/-- Leap-year rule of the proleptic Gregorian calendar used by `datetime`. -/
def isLeapYear (y : Nat) : Bool :=
  (y % 4 == 0 && y % 100 != 0) || y % 400 == 0

/-- Number of days in month `m` of year `y`. -/
def daysInMonth (y m : Nat) : Nat :=
  if m = 2 then (if isLeapYear y then 29 else 28)
  else if m = 4 ∨ m = 6 ∨ m = 9 ∨ m = 11 then 30
  else 31

/-- The time suffix carried by every due timestamp the server writes, after
`format_task`'s `replace('Z', '+00:00')` step. -/
def midnightSuffix : List Char := "T00:00:00.000+00:00".data

/-- Modelled from the vendor `datetime.fromisoformat`, restricted to the
timestamp shapes this server produces: a digit-and-dash `YYYY-MM-DD` prefix
(calendar-validated, year 1-9999) followed by nothing or by the
midnight-UTC suffix; everything else is a parse failure (`none`). -/
def parseIsoDue (s : String) : Option (Nat × Nat × Nat) :=
  match s.data with
  | c1 :: c2 :: c3 :: c4 :: c5 :: c6 :: c7 :: c8 :: c9 :: c10 :: rest =>
    if c1.isDigit && c2.isDigit && c3.isDigit && c4.isDigit && (c5 == '-')
        && c6.isDigit && c7.isDigit && (c8 == '-') && c9.isDigit && c10.isDigit
        && (rest.isEmpty || rest == midnightSuffix) then
      let y := (((c1.toNat - 48) * 10 + (c2.toNat - 48)) * 10
                  + (c3.toNat - 48)) * 10 + (c4.toNat - 48)
      let m := (c6.toNat - 48) * 10 + (c7.toNat - 48)
      let d := (c9.toNat - 48) * 10 + (c10.toNat - 48)
      if 1 ≤ y ∧ y ≤ 9999 ∧ 1 ≤ m ∧ m ≤ 12 ∧ 1 ≤ d ∧ d ≤ daysInMonth y m then
        some (y, m, d)
      else none
    else none
  | _ => none

/-- Embedding of `format_task`'s due display: replace `'Z'` with
`'+00:00'`, parse, and format as `%Y-%m-%d`; on parse failure return the
raw stored string (the bare `except` branch). -/
def displayDue (due : String) : String :=
  match parseIsoDue (pyReplace due "Z" "+00:00") with
  | some (y, m, d) => formatYMD y m d
  | none => due

/-! ## JSON dumps (vendor `json.dumps(..., indent=2)`, ASCII fragment)

Modelled from the vendor `json` library for the record shapes this server
serializes: lists of flat string-to-string objects, `indent=2`.  The escape
table covers the characters relevant here (`"`­, `\`, and common control
characters); all inputs proved about are ASCII. -/

/-- JSON string escaping for one character (ASCII fragment). -/
def jsonEscapeChar (c : Char) : List Char :=
  if c = '"' then ['\\', '"']
  else if c = '\\' then ['\\', '\\']
  else if c = '\n' then ['\\', 'n']
  else if c = '\t' then ['\\', 't']
  else if c = '\r' then ['\\', 'r']
  else [c]

/-- JSON string escaping. -/
def jsonEscape (s : String) : String :=
  ⟨s.data.flatMap jsonEscapeChar⟩

/-- A JSON string literal. -/
def jsonQuote (s : String) : String :=
  "\"" ++ jsonEscape s ++ "\""

/-- One `"key": "value"` member. -/
def jsonMember (p : String × String) : String :=
  jsonQuote p.1 ++ ": " ++ jsonQuote p.2

/-- `json.dumps(d, indent=2)` for a flat object nested inside a list
(member indent 4, closing brace indent 2). -/
def dumpDictInList (d : PyDict) : String :=
  match d with
  | [] => "\x7b\x7d"
  | p :: rest =>
    "\x7b\n    " ++ jsonMember p
      ++ strConcat (rest.map (fun q => ",\n    " ++ jsonMember q)) ++ "\n  \x7d"

/-- `json.dumps(d, indent=2)` for a flat object at top level. -/
def dumpDictTop (d : PyDict) : String :=
  match d with
  | [] => "\x7b\x7d"
  | p :: rest =>
    "\x7b\n  " ++ jsonMember p
      ++ strConcat (rest.map (fun q => ",\n  " ++ jsonMember q)) ++ "\n\x7d"

/-- `json.dumps(tasks, indent=2)` for a list of flat objects. -/
def jsonDumpTasks (ts : List PyDict) : String :=
  match ts with
  | [] => "[]"
  | d :: rest =>
    "[\n  " ++ dumpDictInList d
      ++ strConcat (rest.map (fun d2 => ",\n  " ++ dumpDictInList d2)) ++ "\n]"

/-! ## Response formatter (`ResponseFormatter`, lines 446-540) -/

/-- The `ResponseFormat` enum. -/
inductive ResponseFormat where
  | json
  | markdown
  | concise
  | detailed
deriving DecidableEq

/-- The global character budget `CHARACTER_LIMIT` (line 37). -/
def CHARACTER_LIMIT : Nat := 25000

/-- The truncation marker appended by `format_multiple_tasks` (line 538). -/
def truncationMarker : String := "\n\n... (truncated due to length)"

/-- Embedding of `ResponseFormatter.format_task`. -/
def formatTask (task : PyDict) (fmt : ResponseFormat) : String :=
  if fmt = ResponseFormat.json then dumpDictTop task
  else
    let title := dictGet task "title" "Untitled"
    let notes := dictGet task "notes" ""
    let status := dictGet task "status" "needsAction"
    let due := dictGet task "due" ""
    let dueStr := if due = "" then "" else displayDue due
    let statusEmoji := if status = "completed" then "✅" else "⏳"
    if fmt = ResponseFormat.concise then
      statusEmoji ++ " " ++ title ++ (if dueStr ≠ "" then " 📅 " ++ dueStr else "")
    else
      let base := "### " ++ statusEmoji ++ " " ++ title ++ "\n"
      if fmt = ResponseFormat.detailed then
        base ++ (if notes ≠ "" then "**Notes:** " ++ notes ++ "\n" else "")
          ++ (if dueStr ≠ "" then "**Due:** " ++ dueStr ++ "\n" else "")
          ++ "**Status:** " ++ status ++ "\n"
          ++ "**ID:** " ++ dictGet task "id" "N/A" ++ "\n"
      else
        base ++ (if notes ≠ "" then "> " ++ notes ++ "\n" else "")
          ++ (if dueStr ≠ "" then "📅 **Due:** " ++ dueStr ++ "\n" else "")

/-- The markdown-family item join of `format_multiple_tasks`: items
separated by `"\n---\n\n"` (the separator precedes every item but the
first). -/
def mdJoin (fmt : ResponseFormat) : List PyDict → String
  | [] => ""
  | t :: ts =>
    formatTask t fmt ++ strConcat (ts.map (fun u => "\n---\n\n" ++ formatTask u fmt))

/-- The joined (pre-truncation) rendering of `format_multiple_tasks` for
the non-JSON formats: heading plus items. -/
def joinedRendering (tasks : List PyDict) (fmt : ResponseFormat) (title : String) : String :=
  let base := "# " ++ title ++ "\n\n"
  if fmt = ResponseFormat.concise then
    List.foldl (fun acc t => acc ++ formatTask t ResponseFormat.concise ++ "\n") base tasks
  else
    base ++ mdJoin fmt tasks

/-- Embedding of `ResponseFormatter.format_multiple_tasks` (lines 516-540):
empty input, JSON early return, joined rendering, then the character-limit
truncation. -/
def format_multiple_tasks (tasks : List PyDict) (fmt : ResponseFormat) (title : String) : String :=
  if tasks.isEmpty then "No tasks found."
  else if fmt = ResponseFormat.json then jsonDumpTasks tasks
  else
    let result := joinedRendering tasks fmt title
    if CHARACTER_LIMIT < result.length then
      pySlice result (CHARACTER_LIMIT - 100) ++ truncationMarker
    else result

/-! ## Search across lists (`search_tasks`, lines 917-973)

The remote side is an environment: each task list carries its id, title,
its stored tasks, and a flag saying whether fetching its tasks raises (the
`except` branch that logs and continues).  The remote `tasklists().list`
honouring `maxResults=50` and `tasks().list` honouring `maxResults=100` and
`showCompleted` are modelled by `take`/`filter` on the environment. -/

/-- One remote task list in the search environment. -/
structure TaskListRec where
  id : String
  title : String
  tasks : List PyDict
  fetchFails : Bool
deriving DecidableEq

/-- Modelled remote `tasks().list(tasklist=l.id, maxResults=100,
showCompleted=inc)`: completed tasks are hidden unless requested, and at
most 100 tasks are returned. -/
def serverListTasks (l : TaskListRec) (inc : Bool) : List PyDict :=
  (if inc then l.tasks
   else l.tasks.filter (fun t => !(dictLookup t "status" == some "completed"))).take 100

/-- The match test of `search_tasks`: the lowercased query occurs in the
lowercased title or in the lowercased notes. -/
def taskMatches (queryLower : String) (t : PyDict) : Bool :=
  pyContains (pyLower (dictGet t "title" "")) queryLower
    || pyContains (pyLower (dictGet t "notes" "")) queryLower

/-- The annotation `task['_list_title'] = task_list['title']`. -/
def annotateWith (listTitle : String) (t : PyDict) : PyDict :=
  dictSet t "_list_title" listTitle

/-- Inner loop of `search_tasks`: walk one list's tasks, appending
annotated matches, and break as soon as `max_results` is reached. -/
def searchInTasks (queryLower listTitle : String) (maxR : Nat) (acc : List PyDict) :
    List PyDict → List PyDict
  | [] => acc
  | t :: ts =>
    if taskMatches queryLower t then
      if maxR ≤ (acc ++ [annotateWith listTitle t]).length then
        acc ++ [annotateWith listTitle t]
      else searchInTasks queryLower listTitle maxR (acc ++ [annotateWith listTitle t]) ts
    else searchInTasks queryLower listTitle maxR acc ts

/-- Outer loop of `search_tasks`: walk the task lists, skipping a list
whose task fetch raises, and break as soon as `max_results` is reached. -/
def searchAcrossLists (queryLower : String) (inc : Bool) (maxR : Nat) (acc : List PyDict) :
    List TaskListRec → List PyDict
  | [] => acc
  | l :: ls =>
    if l.fetchFails then searchAcrossLists queryLower inc maxR acc ls
    else
      if maxR ≤ (searchInTasks queryLower l.title maxR acc (serverListTasks l inc)).length then
        searchInTasks queryLower l.title maxR acc (serverListTasks l inc)
      else searchAcrossLists queryLower inc maxR
        (searchInTasks queryLower l.title maxR acc (serverListTasks l inc)) ls

/-- Embedding of the collection phase of `search_tasks`: up to 50 task
lists are enumerated (`list_tasklists(max_results=50)`), and matches are
accumulated up to `max_results`. -/
def searchTasks (allLists : List TaskListRec) (query : String) (inc : Bool) (maxR : Nat) :
    List PyDict :=
  searchAcrossLists (pyLower query) inc maxR [] (allLists.take 50)

/-- Specification-side stream of all annotated matches, in list order then
task order, skipping lists whose fetch fails. -/
def annotatedMatches (queryLower : String) (inc : Bool) : List TaskListRec → List PyDict
  | [] => []
  | l :: ls =>
    (if l.fetchFails then []
     else ((serverListTasks l inc).filter (taskMatches queryLower)).map (annotateWith l.title))
      ++ annotatedMatches queryLower inc ls

/-- Embedding of the rendering phase of `search_tasks`: no-match message,
JSON dump of the annotated records, or the markdown loop that pops
`_list_title` off each record before formatting it. -/
def searchTasksRendered (allLists : List TaskListRec) (query : String) (inc : Bool)
    (maxR : Nat) (fmt : ResponseFormat) : String :=
  let matching := searchTasks allLists query inc maxR
  if matching.isEmpty then "No tasks found matching '" ++ query ++ "'."
  else if fmt = ResponseFormat.json then jsonDumpTasks matching
  else
    let header := "# Search Results for '" ++ query ++ "'\n\n"
      ++ "Found " ++ toString matching.length ++ " matching task(s)\n\n"
    List.foldl (fun acc t =>
      acc ++ "**List:** " ++ dictGet t "_list_title" "Unknown List" ++ "\n"
        ++ formatTask (dictPop t "_list_title") fmt ++ "\n---\n\n") header matching

/-! ## Bulk creation (`bulk_create_tasks`, lines 869-903)

The per-title outcome of `create_task` is supplied by the environment:
`failsOn t` says whether creating title `t` raises, and `errMsg t` is the
exception text recorded for it. -/

/-- Outcome of the bulk-creation loop. -/
structure BulkRun where
  attempted : List String
  created : List String
  failed : List String
deriving DecidableEq

/-- Embedding of the creation loop of `bulk_create_tasks`: every title is
attempted in input order; a success is appended to `created_tasks`, a
failure is recorded as `f"{task_title}: {str(e)}"` and the loop
continues. -/
def bulkCreate (failsOn : String → Bool) (errMsg : String → String) :
    List String → BulkRun
  | [] => ⟨[], [], []⟩
  | t :: ts =>
    let r := bulkCreate failsOn errMsg ts
    if failsOn t then ⟨t :: r.attempted, r.created, (t ++ ": " ++ errMsg t) :: r.failed⟩
    else ⟨t :: r.attempted, t :: r.created, r.failed⟩

/-- Embedding of the report builder of `bulk_create_tasks` (lines 886-901),
with the source's `for`-loops as `foldl`s over the truncated lists. -/
def bulkReport (created failed : List String) : String :=
  let o1 := "# Bulk Task Creation Results\n\n"
    ++ "✅ **Successfully created:** " ++ toString created.length ++ " tasks\n"
  let o2 :=
    if !created.isEmpty then
      let oa := o1 ++ "\n**Created tasks:**\n"
      let ob := List.foldl (fun acc t => acc ++ "- " ++ t ++ "\n") oa (created.take 10)
      if 10 < created.length then
        ob ++ "... and " ++ toString (created.length - 10) ++ " more\n"
      else ob
    else o1
  if !failed.isEmpty then
    let oc := o2 ++ "\n❌ **Failed:** " ++ toString failed.length ++ " tasks\n"
    List.foldl (fun acc f => acc ++ "- " ++ f ++ "\n") oc (failed.take 5)
  else o2

/-- The full `bulk_create_tasks` tool: run the loop, then build the
report. -/
def bulk_create_tasks (failsOn : String → Bool) (errMsg : String → String)
    (titles : List String) : String :=
  let r := bulkCreate failsOn errMsg titles
  bulkReport r.created r.failed

/-- Specification-side rendering of the report for the amended claim C6:
first 10 created titles with an explicit overflow line when more exist,
total failure count followed by the first 5 failure records, and no
overflow line for failures. -/
def bulkReportSpec (created failed : List String) : String :=
  "# Bulk Task Creation Results\n\n✅ **Successfully created:** "
    ++ toString created.length ++ " tasks\n"
  ++ (if created.isEmpty then ""
      else "\n**Created tasks:**\n"
        ++ strConcat ((created.take 10).map (fun t => "- " ++ t ++ "\n"))
        ++ (if 10 < created.length then
              "... and " ++ toString (created.length - 10) ++ " more\n"
            else ""))
  ++ (if failed.isEmpty then ""
      else "\n❌ **Failed:** " ++ toString failed.length ++ " tasks\n"
        ++ strConcat ((failed.take 5).map (fun f => "- " ++ f ++ "\n")))

/-! ## Task summary (`get_task_summary`, lines 989-1055)

Dates are integer day numbers with `today` a parameter; the remote fetch is
an environment function receiving exactly the arguments the source passes:
the task list id (always `"@default"`), `max_results=50`, the
`include_completed` flag, and the `(due_min, due_max)` filter pair. -/

/-- The `time_range` literal. -/
inductive TimeRange where
  | today
  | tomorrow
  | week
  | overdue
  | all
deriving DecidableEq

/-- The `(due_min, due_max)` filter pair built by `get_task_summary` from
the requested time range (day numbers relative to `today`). -/
def summaryFilters (today : Int) (tr : TimeRange) : Option Int × Option Int :=
  match tr with
  | .today => (some today, some today)
  | .tomorrow => (some (today + 1), some (today + 1))
  | .week => (some today, some (today + 7))
  | .overdue => (none, some (today - 1))
  | .all => (none, none)

/-- Observable outcome of `get_task_summary`: which list was fetched with
which arguments, the partition of the fetched tasks, and the items actually
displayed. -/
structure SummaryView where
  fetchedList : String
  fetchedMax : Nat
  dueMin : Option Int
  dueMax : Option Int
  pending : List PyDict
  completed : List PyDict
  pendingShown : List PyDict
  completedShown : List PyDict

/-- Embedding of `get_task_summary`: build the date filters from the time
range, fetch from the default list with `max_results=50`, partition by
status, and display at most 20 pending and at most 10 completed items (the
completed section only when requested and non-empty). -/
def getTaskSummary (today : Int) (tr : TimeRange) (inc : Bool)
    (server : String → Nat → Bool → Option Int → Option Int → List PyDict) :
    SummaryView :=
  let f := summaryFilters today tr
  let tasks := server "@default" 50 inc f.1 f.2
  let pending := tasks.filter (fun t => !(dictLookup t "status" == some "completed"))
  let completed := tasks.filter (fun t => dictLookup t "status" == some "completed")
  { fetchedList := "@default", fetchedMax := 50, dueMin := f.1, dueMax := f.2,
    pending := pending, completed := completed,
    pendingShown := pending.take 20,
    completedShown := if inc && !completed.isEmpty then completed.take 10 else [] }

/-- Structural form of `replaceGo` for a one-character pattern (used to
reason about the `replace('Z', '+00:00')` step of the due display). -/
def replZ (p : Char) (rep : List Char) : List Char → List Char
  | [] => []
  | c :: cs => if c == p then rep ++ replZ p rep cs else c :: replZ p rep cs

/-- A task record whose title alone exceeds the character budget (used to
exhibit the JSON path of `format_multiple_tasks`). -/
def hugeTaskTitle : String := ⟨List.replicate 25001 'a'⟩

/-- The task list holding that record. -/
def hugeTask : PyDict := [("title", hugeTaskTitle)]

/-! # Theorems -/

/-! ### Theorems for claim C4 -/

/-- C4 (amended): quick-add checks "tomorrow", then "today", then
"next week" on the lowercased text, first match winning; the due date is
today+1, today, today+7 respectively; the matched phrase is removed from the
case-folded text and the result whitespace-stripped to give the title.  When
no phrase matches the title is the whitespace-stripped input (case
preserved) and no due date is set. -/
theorem quick_add_parsing (today : Int) (text : String) :
    (pyContains (pyLower text) "tomorrow" = true →
      quickAddParse today text =
        (pyStrip (pyStrip (pyReplace (pyLower text) "tomorrow" "")), some (today + 1)))
  ∧ (pyContains (pyLower text) "tomorrow" = false →
     pyContains (pyLower text) "today" = true →
      quickAddParse today text =
        (pyStrip (pyStrip (pyReplace (pyLower text) "today" "")), some today))
  ∧ (pyContains (pyLower text) "tomorrow" = false →
     pyContains (pyLower text) "today" = false →
     pyContains (pyLower text) "next week" = true →
      quickAddParse today text =
        (pyStrip (pyStrip (pyReplace (pyLower text) "next week" "")), some (today + 7)))
  ∧ (pyContains (pyLower text) "tomorrow" = false →
     pyContains (pyLower text) "today" = false →
     pyContains (pyLower text) "next week" = false →
      quickAddParse today text = (pyStrip text, none)) := by
  refine ⟨?_, ?_, ?_, ?_⟩ <;> intros <;> simp [quickAddParse, *]

/-- Witness for C4: the spec's own example, "Buy milk tomorrow" yields title
"buy milk" and due date = today + 1 (with today = 0). -/
theorem quick_add_parsing_witness :
    quickAddParse 0 "Buy milk tomorrow" = ("buy milk", some 1) := by
  have h := (quick_add_parsing 0 "Buy milk tomorrow").1 (by decide)
  rw [h]; decide

/-- Counterexample for C4 as frozen: on input "Meeting Friday " (trailing
blank, no recognised phrase) the produced title is the stripped string
"Meeting Friday", not the unmodified input. -/
theorem quick_add_strips_counterexample :
    quickAddParse 0 "Meeting Friday " = ("Meeting Friday", none)
    ∧ ("Meeting Friday" : String) ≠ "Meeting Friday " := by
  constructor
  · decide
  · decide

/-! ### Dictionary lemmas -/

theorem dictLookup_cons (k0 v0 : String) (d : PyDict) (k : String) :
    dictLookup ((k0, v0) :: d) k = if k0 = k then some v0 else dictLookup d k := rfl

theorem dictLookup_map_set (d : PyDict) (k v : String)
    (h : (dictLookup d k).isSome) :
    dictLookup (List.map (fun p => if p.1 = k then (k, v) else p) d) k = some v := by
  induction d with
  | nil => simp [dictLookup] at h
  | cons p d ih =>
    obtain ⟨k0, v0⟩ := p
    simp only [List.map_cons]
    by_cases hk : k0 = k
    · subst hk
      have h1 : (if ((k0, v0) : String × String).1 = k0 then (k0, v) else (k0, v0)) = (k0, v) := by
        simp
      rw [h1, dictLookup_cons, if_pos rfl]
    · rw [dictLookup_cons, if_neg hk] at h
      have h1 : (if ((k0, v0) : String × String).1 = k then (k, v) else (k0, v0)) = (k0, v0) := by
        simp [hk]
      rw [h1, dictLookup_cons, if_neg hk]
      exact ih h

theorem dictLookup_map_set_ne (d : PyDict) (k v k' : String) (h : k' ≠ k) :
    dictLookup (List.map (fun p => if p.1 = k then (k, v) else p) d) k' = dictLookup d k' := by
  induction d with
  | nil => rfl
  | cons p d ih =>
    obtain ⟨k0, v0⟩ := p
    simp only [List.map_cons]
    by_cases hk : k0 = k
    · subst hk
      have h1 : (if ((k0, v0) : String × String).1 = k0 then (k0, v) else (k0, v0)) = (k0, v) := by
        simp
      rw [h1, dictLookup_cons, dictLookup_cons,
        if_neg (fun hh => h hh.symm), if_neg (fun hh => h hh.symm)]
      exact ih
    · have h1 : (if ((k0, v0) : String × String).1 = k then (k, v) else (k0, v0)) = (k0, v0) := by
        simp [hk]
      rw [h1, dictLookup_cons, dictLookup_cons]
      by_cases hk' : k0 = k'
      · simp [hk']
      · simp [hk', ih]

theorem dictLookup_append_single (d : PyDict) (k v : String)
    (h : dictLookup d k = none) :
    dictLookup (d ++ [(k, v)]) k = some v := by
  induction d with
  | nil => simp [dictLookup_cons]
  | cons p d ih =>
    obtain ⟨k0, v0⟩ := p
    rw [List.cons_append, dictLookup_cons]
    by_cases hk : k0 = k
    · rw [dictLookup_cons, if_pos hk] at h
      exact absurd h (by simp)
    · rw [dictLookup_cons, if_neg hk] at h
      rw [if_neg hk]
      exact ih h

theorem dictLookup_append_ne (d : PyDict) (k v k' : String) (h : k' ≠ k) :
    dictLookup (d ++ [(k, v)]) k' = dictLookup d k' := by
  induction d with
  | nil =>
    rw [List.nil_append, dictLookup_cons, if_neg (fun hh => h hh.symm)]
  | cons p d ih =>
    obtain ⟨k0, v0⟩ := p
    rw [List.cons_append, dictLookup_cons, dictLookup_cons]
    by_cases hk' : k0 = k'
    · simp [hk']
    · simp [hk', ih]

theorem dictLookup_set_self (d : PyDict) (k v : String) :
    dictLookup (dictSet d k v) k = some v := by
  unfold dictSet
  by_cases h : (dictLookup d k).isSome
  · rw [if_pos h]
    exact dictLookup_map_set d k v h
  · rw [if_neg h]
    exact dictLookup_append_single d k v (Option.not_isSome_iff_eq_none.mp h)

theorem dictLookup_set_ne (d : PyDict) (k v k' : String) (h : k' ≠ k) :
    dictLookup (dictSet d k v) k' = dictLookup d k' := by
  unfold dictSet
  by_cases hs : (dictLookup d k).isSome
  · rw [if_pos hs]
    exact dictLookup_map_set_ne d k v k' h
  · rw [if_neg hs]
    exact dictLookup_append_ne d k v k' h

theorem dictLookup_pop_self (d : PyDict) (k : String) :
    dictLookup (dictPop d k) k = none := by
  induction d with
  | nil => rfl
  | cons p d ih =>
    obtain ⟨k0, v0⟩ := p
    unfold dictPop at *
    rw [List.filter_cons]
    by_cases hk : k0 = k
    · simpa [hk] using ih
    · simpa [hk, dictLookup_cons] using ih

theorem dictLookup_pop_ne (d : PyDict) (k k' : String) (h : k' ≠ k) :
    dictLookup (dictPop d k) k' = dictLookup d k' := by
  induction d with
  | nil => rfl
  | cons p d ih =>
    obtain ⟨k0, v0⟩ := p
    unfold dictPop at *
    rw [List.filter_cons]
    by_cases hk : k0 = k
    · have hpred : (!((k0, v0) : String × String).1 == k) = false := by simp [hk]
      rw [hpred, if_neg (by simp), dictLookup_cons,
        if_neg (by rw [hk]; exact fun hh => h hh.symm)]
      exact ih
    · have hpred : (!((k0, v0) : String × String).1 == k) = true := by simp [hk]
      rw [hpred, if_pos rfl, dictLookup_cons, dictLookup_cons]
      by_cases hk' : k0 = k'
      · rw [if_pos hk', if_pos hk']
      · rw [if_neg hk', if_neg hk']
        exact ih

/-! ### Theorems for claim C2 -/

/-- C2: when the persisted credential parses and is valid (non-expired), it
is returned with no refresh call, no interactive flow and no token-file
write; when it parses but is expired with a refresh token, exactly one
refresh call is made, a successful refresh returns the refreshed
credential, and a failed refresh is not propagated — the run ends exactly
as it would had no credential been persisted at all. -/
theorem get_credentials_spec (w : AuthWorld) (c : Cred)
    (hf : w.tokenFileExists = true) (hp : w.parsedCred = some c) :
    (c.valid = true →
      getCredentials w =
        { outcome := .ok c, refreshCalls := 0, flowCalls := 0, tokenWrites := 0 })
  ∧ (c.expired = true → c.hasRefreshToken = true →
      (getCredentials w).refreshCalls = 1
      ∧ (w.refreshOk = true → (getCredentials w).outcome = .ok w.refreshedCred)
      ∧ (w.refreshOk = false →
          (getCredentials w).outcome =
            (getCredentials { w with tokenFileExists := false }).outcome)) := by
  constructor
  · intro hv
    simp [getCredentials, hf, hp, hv]
  · intro he hr
    have hv : c.valid = false := by simp [Cred.valid, he]
    refine ⟨?_, ?_, ?_⟩ <;>
      by_cases hro : w.refreshOk <;>
      by_cases hcf : w.credsFileExists <;>
      simp [getCredentials, hf, hp, hv, he, hr, hro, hcf]

/-- Witness for C2: a concrete valid persisted credential is returned
untouched, with zero refresh calls, zero flow runs and zero token writes. -/
theorem get_credentials_spec_witness :
    getCredentials
      { tokenFileExists := true, parsedCred := some ⟨true, false, false, 0⟩,
        refreshOk := false, refreshedCred := ⟨true, false, false, 1⟩,
        credsFileExists := true, flowCred := ⟨true, false, false, 2⟩ }
      = { outcome := .ok ⟨true, false, false, 0⟩, refreshCalls := 0,
          flowCalls := 0, tokenWrites := 0 } :=
  (get_credentials_spec _ ⟨true, false, false, 0⟩ rfl rfl).1 rfl

/-! ### Stage lemmas for the update merge -/

theorem applyTitle_lookup_ne (t : PyDict) (u : TaskUpdates) (k : String)
    (h : k ≠ "title") : dictLookup (applyTitle t u) k = dictLookup t k := by
  unfold applyTitle
  cases u.title with
  | none => rfl
  | some s =>
    by_cases hs : s = "" <;> simp [hs, dictLookup_set_ne t "title" s k h]

theorem applyNotes_lookup_ne (t : PyDict) (u : TaskUpdates) (k : String)
    (h : k ≠ "notes") : dictLookup (applyNotes t u) k = dictLookup t k := by
  unfold applyNotes
  cases u.notes with
  | none => rfl
  | some s =>
    by_cases hs : s = "" <;> simp [hs, dictLookup_set_ne t "notes" s k h]

theorem applyStatus_lookup_ne (t : PyDict) (u : TaskUpdates) (k : String)
    (h : k ≠ "status") : dictLookup (applyStatus t u) k = dictLookup t k := by
  unfold applyStatus
  cases u.status with
  | none => rfl
  | some s =>
    by_cases hs : s = "" <;> simp [hs, dictLookup_set_ne t "status" s k h]

theorem applyDue_lookup_ne (t : PyDict) (u : TaskUpdates) (k : String)
    (h : k ≠ "due") : dictLookup (applyDue t u) k = dictLookup t k := by
  unfold applyDue
  cases u.due_date with
  | none => rfl
  | some s =>
    by_cases hc : s = "clear"
    · simp [hc, dictLookup_pop_ne t "due" k h]
    · by_cases hs : s = "" <;>
        simp [hc, hs, dictLookup_set_ne t "due" (s ++ "T00:00:00.000Z") k h]

theorem applyTitle_isSome (t : PyDict) (u : TaskUpdates) (k : String)
    (h : (dictLookup t k).isSome) : (dictLookup (applyTitle t u) k).isSome := by
  by_cases hk : k = "title"
  · subst hk
    unfold applyTitle
    cases u.title with
    | none => exact h
    | some s =>
      by_cases hs : s = ""
      · simpa [hs] using h
      · simp [hs, dictLookup_set_self]
  · rw [applyTitle_lookup_ne t u k hk]
    exact h

theorem applyNotes_isSome (t : PyDict) (u : TaskUpdates) (k : String)
    (h : (dictLookup t k).isSome) : (dictLookup (applyNotes t u) k).isSome := by
  by_cases hk : k = "notes"
  · subst hk
    unfold applyNotes
    cases u.notes with
    | none => exact h
    | some s =>
      by_cases hs : s = ""
      · simpa [hs] using h
      · simp [hs, dictLookup_set_self]
  · rw [applyNotes_lookup_ne t u k hk]
    exact h

theorem applyStatus_isSome (t : PyDict) (u : TaskUpdates) (k : String)
    (h : (dictLookup t k).isSome) : (dictLookup (applyStatus t u) k).isSome := by
  by_cases hk : k = "status"
  · subst hk
    unfold applyStatus
    cases u.status with
    | none => exact h
    | some s =>
      by_cases hs : s = ""
      · simpa [hs] using h
      · simp [hs, dictLookup_set_self]
  · rw [applyStatus_lookup_ne t u k hk]
    exact h

/-! ### Theorems for claim C3 -/

/-- C3: the record written back by `update_task` is the fetched record with
only the update fields overlaid.  Every key other than `title`, `notes`,
`status` and `due` keeps its fetched value; each of the four keys keeps its
fetched value when the corresponding update field is absent; a present
non-empty title/notes/status value is overlaid; for `due`, the literal
sentinel `"clear"` removes the key, any other supplied (non-empty,
non-sentinel) date sets it to the start-of-day timestamp, and an absent
`due_date` leaves it unchanged. -/
theorem update_task_merge_spec (task : PyDict) (u : TaskUpdates) :
    (∀ k, k ≠ "title" → k ≠ "notes" → k ≠ "status" → k ≠ "due" →
        dictLookup (applyTaskUpdates task u) k = dictLookup task k)
  ∧ (u.title = none →
      dictLookup (applyTaskUpdates task u) "title" = dictLookup task "title")
  ∧ (u.notes = none →
      dictLookup (applyTaskUpdates task u) "notes" = dictLookup task "notes")
  ∧ (u.status = none →
      dictLookup (applyTaskUpdates task u) "status" = dictLookup task "status")
  ∧ (u.due_date = none →
      dictLookup (applyTaskUpdates task u) "due" = dictLookup task "due")
  ∧ (∀ s, u.title = some s → s ≠ "" →
      dictLookup (applyTaskUpdates task u) "title" = some s)
  ∧ (∀ s, u.notes = some s → s ≠ "" →
      dictLookup (applyTaskUpdates task u) "notes" = some s)
  ∧ (∀ s, u.status = some s → s ≠ "" →
      dictLookup (applyTaskUpdates task u) "status" = some s)
  ∧ (u.due_date = some "clear" →
      dictLookup (applyTaskUpdates task u) "due" = none)
  ∧ (∀ s, u.due_date = some s → s ≠ "clear" → s ≠ "" →
      dictLookup (applyTaskUpdates task u) "due" = some (s ++ "T00:00:00.000Z")) := by
  unfold applyTaskUpdates
  refine ⟨?_, ?_, ?_, ?_, ?_, ?_, ?_, ?_, ?_, ?_⟩
  · intro k h1 h2 h3 h4
    rw [applyDue_lookup_ne _ u k h4, applyStatus_lookup_ne _ u k h3,
      applyNotes_lookup_ne _ u k h2, applyTitle_lookup_ne _ u k h1]
  · intro h
    rw [applyDue_lookup_ne _ u _ (by decide), applyStatus_lookup_ne _ u _ (by decide),
      applyNotes_lookup_ne _ u _ (by decide)]
    unfold applyTitle
    rw [h]
  · intro h
    rw [applyDue_lookup_ne _ u _ (by decide), applyStatus_lookup_ne _ u _ (by decide)]
    unfold applyNotes
    rw [h]
    exact applyTitle_lookup_ne _ u _ (by decide)
  · intro h
    rw [applyDue_lookup_ne _ u _ (by decide)]
    unfold applyStatus
    rw [h]
    rw [applyNotes_lookup_ne _ u _ (by decide), applyTitle_lookup_ne _ u _ (by decide)]
  · intro h
    unfold applyDue
    rw [h]
    rw [applyStatus_lookup_ne _ u _ (by decide), applyNotes_lookup_ne _ u _ (by decide),
      applyTitle_lookup_ne _ u _ (by decide)]
  · intro s hs hne
    rw [applyDue_lookup_ne _ u _ (by decide), applyStatus_lookup_ne _ u _ (by decide),
      applyNotes_lookup_ne _ u _ (by decide)]
    unfold applyTitle
    rw [hs]
    simp [hne, dictLookup_set_self]
  · intro s hs hne
    rw [applyDue_lookup_ne _ u _ (by decide), applyStatus_lookup_ne _ u _ (by decide)]
    unfold applyNotes
    rw [hs]
    simp [hne, dictLookup_set_self]
  · intro s hs hne
    rw [applyDue_lookup_ne _ u _ (by decide)]
    unfold applyStatus
    rw [hs]
    simp [hne, dictLookup_set_self]
  · intro h
    unfold applyDue
    rw [h]
    simp [dictLookup_pop_self]
  · intro s hs hc hne
    unfold applyDue
    rw [hs]
    simp [hc, hne, dictLookup_set_self]

/-- Witness for C3: concrete merge — a request carrying only a new title
and the `"clear"` sentinel leaves `notes` and `etag` untouched, overlays
`title`, and removes `due`. -/
theorem update_task_merge_spec_witness :
    dictLookup (applyTaskUpdates
        [("id", "1"), ("title", "Old"), ("notes", "keep"),
         ("due", "2024-01-01T00:00:00.000Z"), ("etag", "x")]
        ⟨some "New", none, none, some "clear"⟩) "etag" = some "x"
  ∧ dictLookup (applyTaskUpdates
        [("id", "1"), ("title", "Old"), ("notes", "keep"),
         ("due", "2024-01-01T00:00:00.000Z"), ("etag", "x")]
        ⟨some "New", none, none, some "clear"⟩) "title" = some "New"
  ∧ dictLookup (applyTaskUpdates
        [("id", "1"), ("title", "Old"), ("notes", "keep"),
         ("due", "2024-01-01T00:00:00.000Z"), ("etag", "x")]
        ⟨some "New", none, none, some "clear"⟩) "due" = none := by
  refine ⟨?_, ?_, ?_⟩
  · exact (update_task_merge_spec _ _).1 "etag" (by decide) (by decide) (by decide) (by decide)
  · exact (update_task_merge_spec _ _).2.2.2.2.2.1 "New" rfl (by decide)
  · exact (update_task_merge_spec _ _).2.2.2.2.2.2.2.2.1 rfl

/-! ### Theorems for claim C9 -/

/-- C9: a falsy supplied value is skipped by the merge.  In particular
`notes = ""` — which the tool layer forwards because it only checks
`is not None` — leaves the server-side notes unchanged; no key other than
`due` can be removed by an update; and the merged value of `title`, `notes`
or `status` is either the fetched value or a non-empty supplied string, so
those fields can never be blanked or emptied through `update_task`. -/
theorem update_tool_no_field_blanking (task : PyDict) (i : UpdateToolInput) :
    (i.notes = some "" →
      dictLookup (applyTaskUpdates task (toolLayerUpdates i)) "notes"
        = dictLookup task "notes")
  ∧ (∀ k, k ≠ "due" → (dictLookup task k).isSome →
      (dictLookup (applyTaskUpdates task (toolLayerUpdates i)) k).isSome)
  ∧ (∀ k, k = "title" ∨ k = "notes" ∨ k = "status" →
      dictLookup (applyTaskUpdates task (toolLayerUpdates i)) k = dictLookup task k
      ∨ ∃ s, s ≠ "" ∧ dictLookup (applyTaskUpdates task (toolLayerUpdates i)) k = some s) := by
  refine ⟨?_, ?_, ?_⟩
  · intro h
    unfold applyTaskUpdates
    rw [applyDue_lookup_ne _ _ _ (by decide), applyStatus_lookup_ne _ _ _ (by decide)]
    unfold applyNotes
    have hn : (toolLayerUpdates i).notes = some "" := by
      simp [toolLayerUpdates, h]
    rw [hn]
    simp only [ne_eq, not_true_eq_false, if_false]
    exact applyTitle_lookup_ne _ _ _ (by decide)
  · intro k hk h
    unfold applyTaskUpdates
    rw [applyDue_lookup_ne _ _ _ hk]
    exact applyStatus_isSome _ _ _ (applyNotes_isSome _ _ _ (applyTitle_isSome _ _ _ h))
  · intro k hk
    have hfrm := update_task_merge_spec task (toolLayerUpdates i)
    rcases hk with hk | hk | hk <;> subst hk
    · cases ht : (toolLayerUpdates i).title with
      | none => exact Or.inl (hfrm.2.1 ht)
      | some s =>
        have hs : s ≠ "" := by
          revert ht
          unfold toolLayerUpdates
          cases i.title with
          | none => simp
          | some s0 =>
            by_cases h0 : s0 = "" <;> simp [h0]
            intro h1; rw [← h1]; exact h0
        exact Or.inr ⟨s, hs, hfrm.2.2.2.2.2.1 s ht hs⟩
    · cases ht : (toolLayerUpdates i).notes with
      | none => exact Or.inl (hfrm.2.2.1 ht)
      | some s =>
        by_cases hs : s = ""
        · subst hs
          left
          unfold applyTaskUpdates
          rw [applyDue_lookup_ne _ _ _ (by decide), applyStatus_lookup_ne _ _ _ (by decide)]
          unfold applyNotes
          rw [ht]
          simp only [ne_eq, not_true_eq_false, if_false]
          exact applyTitle_lookup_ne _ _ _ (by decide)
        · exact Or.inr ⟨s, hs, hfrm.2.2.2.2.2.2.1 s ht hs⟩
    · cases ht : (toolLayerUpdates i).status with
      | none => exact Or.inl (hfrm.2.2.2.1 ht)
      | some s =>
        have hs : s ≠ "" := by
          revert ht
          unfold toolLayerUpdates
          cases i.status with
          | none => simp
          | some s0 =>
            by_cases h0 : s0 = "" <;> simp [h0]
            intro h1; rw [← h1]; exact h0
        exact Or.inr ⟨s, hs, hfrm.2.2.2.2.2.2.2.1 s ht hs⟩

/-- Witness for C9: with server record `notes = "old"` and an update whose
`notes` input is the empty string, the merged record still has
`notes = "old"`. -/
theorem update_tool_no_field_blanking_witness :
    dictLookup (applyTaskUpdates [("title", "T"), ("notes", "old")]
        (toolLayerUpdates ⟨none, some "", none, none⟩)) "notes" = some "old" := by
  have h := (update_tool_no_field_blanking [("title", "T"), ("notes", "old")]
    ⟨none, some "", none, none⟩).1 rfl
  rw [h]
  decide

/-! ### Theorems for claim C7 -/

/-- C7: `get_task_summary` maps the time-range keyword to the
`(due_min, due_max)` pair relative to the current date (today ↦ (today,
today), tomorrow ↦ (today+1, today+1), week ↦ (today, today+7), overdue ↦
(no lower bound, today-1), all ↦ no filters), fetches from the default list
only (with the fixed `max_results=50`), partitions the fetched tasks into
pending and completed by status, and displays at most 20 pending and at
most 10 completed items. -/
theorem get_task_summary_spec (today : Int) (tr : TimeRange) (inc : Bool)
    (server : String → Nat → Bool → Option Int → Option Int → List PyDict) :
    (getTaskSummary today tr inc server).fetchedList = "@default"
  ∧ (getTaskSummary today tr inc server).fetchedMax = 50
  ∧ (tr = .today → (getTaskSummary today tr inc server).dueMin = some today
      ∧ (getTaskSummary today tr inc server).dueMax = some today)
  ∧ (tr = .tomorrow → (getTaskSummary today tr inc server).dueMin = some (today + 1)
      ∧ (getTaskSummary today tr inc server).dueMax = some (today + 1))
  ∧ (tr = .week → (getTaskSummary today tr inc server).dueMin = some today
      ∧ (getTaskSummary today tr inc server).dueMax = some (today + 7))
  ∧ (tr = .overdue → (getTaskSummary today tr inc server).dueMin = none
      ∧ (getTaskSummary today tr inc server).dueMax = some (today - 1))
  ∧ (tr = .all → (getTaskSummary today tr inc server).dueMin = none
      ∧ (getTaskSummary today tr inc server).dueMax = none)
  ∧ (getTaskSummary today tr inc server).pending
      = (server "@default" 50 inc (summaryFilters today tr).1 (summaryFilters today tr).2).filter
          (fun t => !(dictLookup t "status" == some "completed"))
  ∧ (getTaskSummary today tr inc server).completed
      = (server "@default" 50 inc (summaryFilters today tr).1 (summaryFilters today tr).2).filter
          (fun t => dictLookup t "status" == some "completed")
  ∧ (getTaskSummary today tr inc server).pendingShown
      = (getTaskSummary today tr inc server).pending.take 20
  ∧ (getTaskSummary today tr inc server).pendingShown.length ≤ 20
  ∧ (getTaskSummary today tr inc server).completedShown.length ≤ 10 := by
  refine ⟨rfl, rfl, ?_, ?_, ?_, ?_, ?_, rfl, rfl, rfl, ?_, ?_⟩
  · intro h; subst h; exact ⟨rfl, rfl⟩
  · intro h; subst h; exact ⟨rfl, rfl⟩
  · intro h; subst h; exact ⟨rfl, rfl⟩
  · intro h; subst h; exact ⟨rfl, rfl⟩
  · intro h; subst h; exact ⟨rfl, rfl⟩
  · exact List.length_take_le 20 _
  · show (if _ && _ then _ else []).length ≤ 10
    split
    · exact List.length_take_le 10 _
    · simp

/-- Witness for C7: the overdue range with a concrete date 10 yields no
lower bound and upper bound 9. -/
theorem get_task_summary_spec_witness :
    (getTaskSummary 10 TimeRange.overdue false (fun _ _ _ _ _ => [])).dueMin = none
  ∧ (getTaskSummary 10 TimeRange.overdue false (fun _ _ _ _ _ => [])).dueMax = some 9 := by
  have h := (get_task_summary_spec 10 TimeRange.overdue false
    (fun _ _ _ _ _ => [])).2.2.2.2.2.1 rfl
  exact ⟨h.1, by rw [h.2]; decide⟩

/-! ### Helper lemmas for the bulk-create report -/

theorem strConcat_nil : strConcat [] = "" := rfl

theorem foldl_append_line (f : String → String) :
    ∀ (l : List String) (acc : String),
      List.foldl (fun a t => a ++ f t) acc l = acc ++ strConcat (l.map f) := by
  intro l
  induction l with
  | nil =>
    intro acc
    simp [strConcat]
  | cons t ts ih =>
    intro acc
    simp only [List.foldl_cons, List.map_cons, strConcat]
    rw [ih, String.append_assoc]

theorem bulkCreate_attempted (failsOn : String → Bool) (errMsg : String → String) :
    ∀ ts, (bulkCreate failsOn errMsg ts).attempted = ts := by
  intro ts
  induction ts with
  | nil => rfl
  | cons t ts ih =>
    by_cases h : failsOn t <;> simp [bulkCreate, h, ih]

theorem bulkCreate_created (failsOn : String → Bool) (errMsg : String → String) :
    ∀ ts, (bulkCreate failsOn errMsg ts).created = ts.filter (fun t => !(failsOn t)) := by
  intro ts
  induction ts with
  | nil => rfl
  | cons t ts ih =>
    by_cases h : failsOn t <;> simp [bulkCreate, h, ih, List.filter_cons]

theorem bulkCreate_failed (failsOn : String → Bool) (errMsg : String → String) :
    ∀ ts, (bulkCreate failsOn errMsg ts).failed
      = (ts.filter failsOn).map (fun t => t ++ ": " ++ errMsg t) := by
  intro ts
  induction ts with
  | nil => rfl
  | cons t ts ih =>
    by_cases h : failsOn t <;> simp [bulkCreate, h, ih, List.filter_cons]

theorem foldl_dash_line :
    ∀ (l : List String) (acc : String),
      List.foldl (fun a t => a ++ "- " ++ t ++ "\n") acc l
        = acc ++ strConcat (l.map (fun t => "- " ++ t ++ "\n")) := by
  intro l
  induction l with
  | nil =>
    intro acc
    simp [strConcat]
  | cons t ts ih =>
    intro acc
    simp only [List.foldl_cons, List.map_cons, strConcat]
    rw [ih]
    simp [String.append_assoc]

theorem bulkReport_eq_spec (created failed : List String) :
    bulkReport created failed = bulkReportSpec created failed := by
  unfold bulkReport bulkReportSpec
  by_cases hc : created.isEmpty <;> by_cases hf : failed.isEmpty <;>
    by_cases ho : 10 < created.length <;>
    simp [hc, hf, ho, foldl_dash_line, ← String.append_assoc]

/-! ### Theorems for claim C6 -/

/-- C6 (amended): `bulk_create_tasks` attempts every title in input order
regardless of per-item failures; the successes are exactly the non-failing
titles in order and the failures the failing ones (recorded as
"title: error") in order; the final report shows the total success count,
the first 10 success titles with an "... and N more" overflow line when
more than 10 exist, and the total failure count followed by the first 5
failure records — with no overflow line for failures. -/
theorem bulk_create_spec (failsOn : String → Bool) (errMsg : String → String)
    (titles : List String) :
    (bulkCreate failsOn errMsg titles).attempted = titles
  ∧ (bulkCreate failsOn errMsg titles).created = titles.filter (fun t => !(failsOn t))
  ∧ (bulkCreate failsOn errMsg titles).failed
      = (titles.filter failsOn).map (fun t => t ++ ": " ++ errMsg t)
  ∧ bulk_create_tasks failsOn errMsg titles
      = bulkReportSpec (titles.filter (fun t => !(failsOn t)))
          ((titles.filter failsOn).map (fun t => t ++ ": " ++ errMsg t)) := by
  refine ⟨bulkCreate_attempted failsOn errMsg titles,
    bulkCreate_created failsOn errMsg titles,
    bulkCreate_failed failsOn errMsg titles, ?_⟩
  show bulkReport (bulkCreate failsOn errMsg titles).created
      (bulkCreate failsOn errMsg titles).failed = _
  rw [bulkCreate_created failsOn errMsg titles, bulkCreate_failed failsOn errMsg titles,
    bulkReport_eq_spec]

/-- Counterexample for C6 as frozen: a run with six failures (more than the
five displayed) reports the total `6 tasks`, lists the first five failure
records, omits the sixth entirely, and contains no overflow marker
("... and N more") anywhere — so there is no overflow count for
failures. -/
theorem bulk_create_overflow_counterexample :
    pyContains (bulk_create_tasks (fun _ => true) (fun _ => "boom")
        ["alpha1", "alpha2", "alpha3", "alpha4", "alpha5", "alpha6"])
      "❌ **Failed:** 6 tasks" = true
  ∧ pyContains (bulk_create_tasks (fun _ => true) (fun _ => "boom")
        ["alpha1", "alpha2", "alpha3", "alpha4", "alpha5", "alpha6"])
      "alpha5: boom" = true
  ∧ pyContains (bulk_create_tasks (fun _ => true) (fun _ => "boom")
        ["alpha1", "alpha2", "alpha3", "alpha4", "alpha5", "alpha6"])
      "alpha6" = false
  ∧ pyContains (bulk_create_tasks (fun _ => true) (fun _ => "boom")
        ["alpha1", "alpha2", "alpha3", "alpha4", "alpha5", "alpha6"])
      "more" = false := by
  refine ⟨?_, ?_, ?_, ?_⟩ <;> decide

/-! ### Helper lemmas for lengths -/

theorem pySlice_length (s : String) (n : Nat) : (pySlice s n).length = min n s.length := by
  show (s.data.take n).length = min n s.data.length
  exact List.length_take n s.data

theorem jsonEscapeChar_length (c : Char) : 1 ≤ (jsonEscapeChar c).length := by
  unfold jsonEscapeChar
  split_ifs <;> simp

theorem jsonEscape_length_ge (s : String) : s.length ≤ (jsonEscape s).length := by
  show s.data.length ≤ (s.data.flatMap jsonEscapeChar).length
  induction s.data with
  | nil => simp
  | cons c cs ih =>
    simp only [List.flatMap_cons, List.length_append, List.length_cons]
    have := jsonEscapeChar_length c
    omega

/-! ### Theorems for claim C1 -/

/-- C1 (amended): for every non-empty task list and every response format
other than JSON, `format_multiple_tasks` returns at most 25000 characters;
whenever the joined rendering exceeds 25000 characters, the returned string
is its first 24900 characters followed by the truncation marker, so the
output length is exactly `(25000 - 100) + marker length = 24931 ≤ 25000`.
(The JSON path returns the dump verbatim with no truncation.) -/
theorem format_multiple_tasks_budget (tasks : List PyDict) (fmt : ResponseFormat)
    (title : String) (hne : tasks ≠ []) (hj : fmt ≠ ResponseFormat.json) :
    (format_multiple_tasks tasks fmt title).length ≤ 25000
  ∧ (25000 < (joinedRendering tasks fmt title).length →
      format_multiple_tasks tasks fmt title
        = pySlice (joinedRendering tasks fmt title) 24900 ++ truncationMarker
      ∧ (format_multiple_tasks tasks fmt title).length
          = 24900 + truncationMarker.length) := by
  have hne' : tasks.isEmpty = false := by
    cases tasks with
    | nil => exact absurd rfl hne
    | cons t ts => rfl
  have hmark : truncationMarker.length = 31 := rfl
  have hform : format_multiple_tasks tasks fmt title =
      if CHARACTER_LIMIT < (joinedRendering tasks fmt title).length then
        pySlice (joinedRendering tasks fmt title) (CHARACTER_LIMIT - 100) ++ truncationMarker
      else joinedRendering tasks fmt title := by
    unfold format_multiple_tasks
    rw [hne']
    simp only [Bool.false_eq_true, if_false]
    rw [if_neg hj]
  by_cases hbig : 25000 < (joinedRendering tasks fmt title).length
  · have hcond : CHARACTER_LIMIT < (joinedRendering tasks fmt title).length := hbig
    rw [hform, if_pos hcond]
    have hsl : (pySlice (joinedRendering tasks fmt title) (CHARACTER_LIMIT - 100)).length
        = 24900 := by
      rw [pySlice_length]
      have : CHARACTER_LIMIT - 100 = 24900 := rfl
      rw [this]
      omega
    refine ⟨?_, fun _ => ⟨rfl, ?_⟩⟩
    · rw [String.length_append, hsl, hmark]
      omega
    · rw [String.length_append, hsl]
  · have hcond : ¬ CHARACTER_LIMIT < (joinedRendering tasks fmt title).length := hbig
    rw [hform, if_neg hcond]
    exact ⟨by omega, fun h => absurd h hbig⟩

/-- Witness for C1: a one-task concise rendering stays within the
budget. -/
theorem format_multiple_tasks_budget_witness :
    (format_multiple_tasks [[("title", "A")]] ResponseFormat.concise "Tasks").length ≤ 25000
  ∧ (25000 < (joinedRendering [[("title", "A")]] ResponseFormat.concise "Tasks").length →
      format_multiple_tasks [[("title", "A")]] ResponseFormat.concise "Tasks"
        = pySlice (joinedRendering [[("title", "A")]] ResponseFormat.concise "Tasks") 24900
            ++ truncationMarker
      ∧ (format_multiple_tasks [[("title", "A")]] ResponseFormat.concise "Tasks").length
          = 24900 + truncationMarker.length) :=
  format_multiple_tasks_budget [[("title", "A")]] ResponseFormat.concise "Tasks"
    (by decide) (by decide)

/-- Counterexample for C1 as frozen: in the JSON format the budget does not
apply — a single task whose title has 25001 characters makes
`format_multiple_tasks` return more than 25000 characters. -/
theorem format_multiple_tasks_json_counterexample :
    25000 < (format_multiple_tasks [hugeTask] ResponseFormat.json "Tasks").length := by
  have h1 : format_multiple_tasks [hugeTask] ResponseFormat.json "Tasks"
      = jsonDumpTasks [hugeTask] := rfl
  have h2 : jsonDumpTasks [hugeTask]
      = "[\n  " ++ ("\x7b\n    " ++ (jsonQuote "title" ++ ": " ++ jsonQuote hugeTaskTitle)
          ++ strConcat [] ++ "\n  \x7d") ++ strConcat [] ++ "\n]" := rfl
  rw [h1, h2]
  have hb := jsonEscape_length_ge hugeTaskTitle
  have hlen : hugeTaskTitle.length = 25001 := by
    show (List.replicate 25001 'a').length = 25001
    exact List.length_replicate 25001 'a'
  simp only [jsonQuote, String.length_append]
  omega

/-! ### Helper lemmas for the search loops -/

theorem searchInTasks_eq (q lt : String) (maxR : Nat) :
    ∀ (ts : List PyDict) (acc : List PyDict), acc.length < maxR →
      searchInTasks q lt maxR acc ts
        = acc ++ ((ts.filter (taskMatches q)).map (annotateWith lt)).take (maxR - acc.length) := by
  intro ts
  induction ts with
  | nil =>
    intro acc h
    simp [searchInTasks]
  | cons t ts ih =>
    intro acc h
    by_cases hm : taskMatches q t
    · have hlen : (acc ++ [annotateWith lt t]).length = acc.length + 1 := by simp
      simp only [searchInTasks, hm, if_true, List.filter_cons_of_pos, List.map_cons]
      by_cases hful : maxR ≤ acc.length + 1
      · rw [if_pos (by rw [hlen]; exact hful)]
        have hn : maxR - acc.length = 1 := by omega
        rw [hn, List.take_succ_cons, List.take_zero]
      · rw [if_neg (by rw [hlen]; exact hful)]
        rw [ih (acc ++ [annotateWith lt t]) (by omega)]
        have hn : maxR - acc.length = (maxR - (acc.length + 1)) + 1 := by omega
        rw [hlen, hn, List.take_succ_cons]
        simp
    · have hfc : List.filter (taskMatches q) (t :: ts) = List.filter (taskMatches q) ts := by
        simp [List.filter_cons, hm]
      simp only [searchInTasks, hm, Bool.false_eq_true, if_false, hfc]
      exact ih acc h

theorem searchAcrossLists_eq (q : String) (inc : Bool) (maxR : Nat) :
    ∀ (ls : List TaskListRec) (acc : List PyDict), acc.length < maxR →
      searchAcrossLists q inc maxR acc ls
        = acc ++ (annotatedMatches q inc ls).take (maxR - acc.length) := by
  intro ls
  induction ls with
  | nil =>
    intro acc h
    simp [searchAcrossLists, annotatedMatches]
  | cons l ls ih =>
    intro acc h
    by_cases hf : l.fetchFails
    · simp only [searchAcrossLists, hf, if_true, annotatedMatches, List.nil_append]
      exact ih acc h
    · have hin := searchInTasks_eq q l.title maxR (serverListTasks l inc) acc h
      simp only [searchAcrossLists, hf, Bool.false_eq_true, if_false, annotatedMatches, hin]
      by_cases hMn : maxR - acc.length
          ≤ (((serverListTasks l inc).filter (taskMatches q)).map (annotateWith l.title)).length
      · have htake : ((((serverListTasks l inc).filter (taskMatches q)).map
            (annotateWith l.title)).take (maxR - acc.length)).length = maxR - acc.length := by
          rw [List.length_take]
          exact Nat.min_eq_left hMn
        rw [if_pos (by rw [List.length_append, htake]; omega)]
        rw [List.take_append_eq_append_take]
        have h0 : maxR - acc.length
            - (((serverListTasks l inc).filter (taskMatches q)).map (annotateWith l.title)).length
            = 0 := by omega
        rw [h0, List.take_zero, List.append_nil]
      · have htake : (((serverListTasks l inc).filter (taskMatches q)).map
            (annotateWith l.title)).take (maxR - acc.length)
            = ((serverListTasks l inc).filter (taskMatches q)).map (annotateWith l.title) :=
          List.take_of_length_le (by omega)
        rw [htake]
        have hlen2 : (acc ++ ((serverListTasks l inc).filter (taskMatches q)).map
            (annotateWith l.title)).length
            = acc.length + (((serverListTasks l inc).filter (taskMatches q)).map
                (annotateWith l.title)).length := by
          simp only [List.length_append]
        rw [if_neg (by rw [hlen2]; omega)]
        rw [ih _ (by rw [hlen2]; omega)]
        have hsub : maxR - (acc ++ ((serverListTasks l inc).filter (taskMatches q)).map
              (annotateWith l.title)).length
            = maxR - acc.length - (((serverListTasks l inc).filter (taskMatches q)).map
              (annotateWith l.title)).length := by
          rw [hlen2]
          omega
        rw [hsub, List.take_append_eq_append_take, htake, List.append_assoc]

/-- The break-based accumulation equals the truncated match stream. -/
theorem searchTasks_eq_take (allLists : List TaskListRec) (query : String) (inc : Bool)
    (maxR : Nat) (h : 1 ≤ maxR) :
    searchTasks allLists query inc maxR
      = (annotatedMatches (pyLower query) inc (allLists.take 50)).take maxR := by
  unfold searchTasks
  rw [searchAcrossLists_eq (pyLower query) inc maxR (allLists.take 50) [] (by simpa using h)]
  simp

theorem mem_annotatedMatches (q : String) (inc : Bool) :
    ∀ (ls : List TaskListRec) (t : PyDict), t ∈ annotatedMatches q inc ls →
      ∃ l, l ∈ ls ∧ l.fetchFails = false ∧ ∃ t0, t = annotateWith l.title t0 := by
  intro ls
  induction ls with
  | nil =>
    intro t ht
    simp [annotatedMatches] at ht
  | cons l ls ih =>
    intro t ht
    simp only [annotatedMatches] at ht
    rcases List.mem_append.mp ht with h1 | h2
    · by_cases hf : l.fetchFails
      · simp [hf] at h1
      · rw [if_neg hf] at h1
        rcases List.mem_map.mp h1 with ⟨t0, _, rfl⟩
        exact ⟨l, List.mem_cons_self l ls, Bool.not_eq_true _ ▸ hf, t0, rfl⟩
    · rcases ih t h2 with ⟨l2, hl2, hff, t0, rfl⟩
      exact ⟨l2, List.mem_cons_of_mem l hl2, hff, t0, rfl⟩

/-! ### Theorems for claim C5 -/

/-- C5: `search_tasks` returns exactly the first `max_results` tasks, in
list order then task order over the (at most 50) enumerated lists and the
(at most 100, completed-filtered) tasks fetched per list, whose lowercased
title or notes contains the lowercased query, each annotated with the
containing list's title; lists whose fetch fails are skipped; the result
never holds more than `max_results` tasks. -/
theorem search_tasks_spec (allLists : List TaskListRec) (query : String) (inc : Bool)
    (maxR : Nat) (h : 1 ≤ maxR) :
    searchTasks allLists query inc maxR
      = (annotatedMatches (pyLower query) inc (allLists.take 50)).take maxR
  ∧ (searchTasks allLists query inc maxR).length ≤ maxR := by
  have heq := searchTasks_eq_take allLists query inc maxR h
  exact ⟨heq, by rw [heq]; exact List.length_take_le maxR _⟩

/-- Witness for C5: the spec's scenario — two lists, where only list B has
a task whose notes contain the query (case-insensitively); the search
returns exactly that task annotated with list B's title. -/
theorem search_tasks_spec_witness :
    searchTasks [⟨"idA", "List A", [[("title", "Pay rent")]], false⟩,
        ⟨"idB", "List B", [[("title", "Other"), ("notes", "Buy MILK soon")]], false⟩]
      "milk" false 20
      = [[("title", "Other"), ("notes", "Buy MILK soon"), ("_list_title", "List B")]] := by
  have h := (search_tasks_spec [⟨"idA", "List A", [[("title", "Pay rent")]], false⟩,
      ⟨"idB", "List B", [[("title", "Other"), ("notes", "Buy MILK soon")]], false⟩]
    "milk" false 20 (by decide)).1
  rw [h]
  decide

/-! ### Theorems for claim C10 -/

/-- C10: with the JSON response format, `search_tasks` returns the JSON
dump of the annotated match records — each carries the synthetic
`_list_title` key holding its containing list's title, i.e. each returned
record is a remote record extended with that key (the key is popped only on
the non-JSON rendering path). -/
theorem search_tasks_json_list_title (allLists : List TaskListRec) (query : String)
    (inc : Bool) (maxR : Nat) (h1 : 1 ≤ maxR)
    (h2 : searchTasks allLists query inc maxR ≠ []) :
    searchTasksRendered allLists query inc maxR ResponseFormat.json
      = jsonDumpTasks (searchTasks allLists query inc maxR)
  ∧ ∀ t ∈ searchTasks allLists query inc maxR,
      ∃ l, l ∈ allLists.take 50 ∧ l.fetchFails = false
        ∧ ∃ t0, t = dictSet t0 "_list_title" l.title
        ∧ dictLookup t "_list_title" = some l.title := by
  constructor
  · have hme : (searchTasks allLists query inc maxR).isEmpty = false := by
      cases h3 : searchTasks allLists query inc maxR with
      | nil => exact absurd h3 h2
      | cons a as => rfl
    simp [searchTasksRendered, hme]
  · intro t ht
    rw [searchTasks_eq_take allLists query inc maxR h1] at ht
    have ht2 := List.mem_of_mem_take ht
    rcases mem_annotatedMatches (pyLower query) inc (allLists.take 50) t ht2 with
      ⟨l, hl, hff, t0, rfl⟩
    exact ⟨l, hl, hff, t0, rfl, dictLookup_set_self t0 "_list_title" l.title⟩

/-- Witness for C10: concrete single-list search in JSON format returns the
dump of the annotated match list. -/
theorem search_tasks_json_list_title_witness :
    searchTasksRendered
        [⟨"idB", "List B", [[("title", "Other"), ("notes", "Buy MILK soon")]], false⟩]
        "milk" false 20 ResponseFormat.json
      = jsonDumpTasks (searchTasks
        [⟨"idB", "List B", [[("title", "Other"), ("notes", "Buy MILK soon")]], false⟩]
        "milk" false 20) :=
  (search_tasks_json_list_title
    [⟨"idB", "List B", [[("title", "Other"), ("notes", "Buy MILK soon")]], false⟩]
    "milk" false 20 (by decide) (by decide)).1

/-! ### Helper lemmas for the due-date roundtrip -/

theorem digitChar_isDigit (n : Nat) (h : n < 10) : (digitChar n).isDigit = true := by
  interval_cases n <;> decide

theorem digitChar_toNat (n : Nat) (h : n < 10) : (digitChar n).toNat - 48 = n := by
  interval_cases n <;> decide

theorem digitChar_ne_Z (n : Nat) (h : n < 10) : (digitChar n == 'Z') = false := by
  interval_cases n <;> decide

theorem replaceGo_one (p : Char) (rep : List Char) :
    ∀ (l : List Char) (fuel : Nat), l.length ≤ fuel →
      replaceGo p [] rep fuel l = replZ p rep l := by
  intro l
  induction l with
  | nil =>
    intro fuel h
    cases fuel <;> rfl
  | cons c cs ih =>
    intro fuel h
    match fuel with
    | 0 =>
      simp only [List.length_cons] at h
      omega
    | fuel + 1 =>
      simp only [List.length_cons] at h
      have hcs : cs.length ≤ fuel := by omega
      have hgo : replaceGo p [] rep (fuel + 1) (c :: cs)
          = if (c == p) = true then rep ++ replaceGo p [] rep fuel cs
            else c :: replaceGo p [] rep fuel cs := by
        simp only [replaceGo, hasPrefixCL, List.length_nil, List.drop_zero, Bool.and_true]
      rw [hgo]
      by_cases hc : (c == p) = true
      · simp only [replZ, hc, if_true]
        rw [ih fuel hcs]
      · simp only [replZ, hc, Bool.false_eq_true, if_false]
        rw [ih fuel hcs]

theorem replZ_append_of_ne (p : Char) (rep : List Char) :
    ∀ (l1 l2 : List Char), (∀ c ∈ l1, (c == p) = false) →
      replZ p rep (l1 ++ l2) = l1 ++ replZ p rep l2 := by
  intro l1
  induction l1 with
  | nil =>
    intro l2 h
    simp
  | cons c cs ih =>
    intro l2 h
    have hc : (c == p) = false := h c (List.mem_cons_self c cs)
    simp only [List.cons_append, replZ, hc, Bool.false_eq_true, if_false, List.append_eq]
    rw [ih l2 (fun e he => h e (List.mem_cons_of_mem c he))]

theorem parseIsoDue_cons (c1 c2 c3 c4 c5 c6 c7 c8 c9 c10 : Char) (rest : List Char) :
    parseIsoDue ⟨c1 :: c2 :: c3 :: c4 :: c5 :: c6 :: c7 :: c8 :: c9 :: c10 :: rest⟩
      = if c1.isDigit && c2.isDigit && c3.isDigit && c4.isDigit && (c5 == '-')
            && c6.isDigit && c7.isDigit && (c8 == '-') && c9.isDigit && c10.isDigit
            && (rest.isEmpty || rest == midnightSuffix) then
          if 1 ≤ (((c1.toNat - 48) * 10 + (c2.toNat - 48)) * 10 + (c3.toNat - 48)) * 10
                + (c4.toNat - 48)
            ∧ (((c1.toNat - 48) * 10 + (c2.toNat - 48)) * 10 + (c3.toNat - 48)) * 10
                + (c4.toNat - 48) ≤ 9999
            ∧ 1 ≤ (c6.toNat - 48) * 10 + (c7.toNat - 48)
            ∧ (c6.toNat - 48) * 10 + (c7.toNat - 48) ≤ 12
            ∧ 1 ≤ (c9.toNat - 48) * 10 + (c10.toNat - 48)
            ∧ (c9.toNat - 48) * 10 + (c10.toNat - 48)
                ≤ daysInMonth ((((c1.toNat - 48) * 10 + (c2.toNat - 48)) * 10
                    + (c3.toNat - 48)) * 10 + (c4.toNat - 48))
                  ((c6.toNat - 48) * 10 + (c7.toNat - 48)) then
            some ((((c1.toNat - 48) * 10 + (c2.toNat - 48)) * 10 + (c3.toNat - 48)) * 10
                + (c4.toNat - 48),
              (c6.toNat - 48) * 10 + (c7.toNat - 48),
              (c9.toNat - 48) * 10 + (c10.toNat - 48))
          else none
        else none := rfl

/-! ### Theorems for claim C8 -/

/-- C8: for every valid calendar date (year 1-9999, zero-padded
`YYYY-MM-DD` form), storing it as a due timestamp the way `create_task`
does and then displaying it the way `format_task` does yields the date
unchanged; and whenever the stored due value fails to parse, the raw stored
string is displayed unchanged (no error is raised — the display function is
total). -/
theorem due_date_roundtrip :
    (∀ y m d : Nat, 1 ≤ y → y ≤ 9999 → 1 ≤ m → m ≤ 12 → 1 ≤ d → d ≤ daysInMonth y m →
      displayDue (toDueTimestamp (formatYMD y m d)) = formatYMD y m d)
  ∧ (∀ s : String, parseIsoDue (pyReplace s "Z" "+00:00") = none → displayDue s = s) := by
  constructor
  · intro y m d hy1 hy2 hm1 hm2 hd1 hd2
    have h1 : y / 1000 % 10 < 10 := Nat.mod_lt _ (by omega)
    have h2 : y / 100 % 10 < 10 := Nat.mod_lt _ (by omega)
    have h3 : y / 10 % 10 < 10 := Nat.mod_lt _ (by omega)
    have h4 : y % 10 < 10 := Nat.mod_lt _ (by omega)
    have h5 : m / 10 % 10 < 10 := Nat.mod_lt _ (by omega)
    have h6 : m % 10 < 10 := Nat.mod_lt _ (by omega)
    have h7 : d / 10 % 10 < 10 := Nat.mod_lt _ (by omega)
    have h8 : d % 10 < 10 := Nat.mod_lt _ (by omega)
    have hrep : pyReplace (toDueTimestamp (formatYMD y m d)) "Z" "+00:00"
        = ⟨replaceGo 'Z' [] "+00:00".data
            ((formatYMD y m d).data ++ "T00:00:00.000Z".data).length
            ((formatYMD y m d).data ++ "T00:00:00.000Z".data)⟩ := rfl
    have hone : replaceGo 'Z' [] "+00:00".data
        ((formatYMD y m d).data ++ "T00:00:00.000Z".data).length
        ((formatYMD y m d).data ++ "T00:00:00.000Z".data)
        = replZ 'Z' "+00:00".data ((formatYMD y m d).data ++ "T00:00:00.000Z".data) :=
      replaceGo_one 'Z' "+00:00".data _ _ (le_refl _)
    have hnoZ : ∀ c ∈ (formatYMD y m d).data, (c == 'Z') = false := by
      intro c hc
      have hdf : (formatYMD y m d).data
          = [digitChar (y / 1000 % 10), digitChar (y / 100 % 10), digitChar (y / 10 % 10),
             digitChar (y % 10), '-', digitChar (m / 10 % 10), digitChar (m % 10), '-',
             digitChar (d / 10 % 10), digitChar (d % 10)] := rfl
      rw [hdf] at hc
      simp only [List.mem_cons, List.not_mem_nil, or_false] at hc
      rcases hc with h | h | h | h | h | h | h | h | h | h
      · subst h; exact digitChar_ne_Z _ h1
      · subst h; exact digitChar_ne_Z _ h2
      · subst h; exact digitChar_ne_Z _ h3
      · subst h; exact digitChar_ne_Z _ h4
      · subst h; rfl
      · subst h; exact digitChar_ne_Z _ h5
      · subst h; exact digitChar_ne_Z _ h6
      · subst h; rfl
      · subst h; exact digitChar_ne_Z _ h7
      · subst h; exact digitChar_ne_Z _ h8
    have hz : replZ 'Z' "+00:00".data ((formatYMD y m d).data ++ "T00:00:00.000Z".data)
        = (formatYMD y m d).data ++ "T00:00:00.000+00:00".data := by
      rw [replZ_append_of_ne 'Z' "+00:00".data _ _ hnoZ]
      congr 1
    have hparse : parseIsoDue ⟨(formatYMD y m d).data ++ "T00:00:00.000+00:00".data⟩
        = some (y, m, d) := by
      have hdf : ((formatYMD y m d).data ++ "T00:00:00.000+00:00".data)
          = digitChar (y / 1000 % 10) :: digitChar (y / 100 % 10) :: digitChar (y / 10 % 10)
            :: digitChar (y % 10) :: '-' :: digitChar (m / 10 % 10) :: digitChar (m % 10)
            :: '-' :: digitChar (d / 10 % 10) :: digitChar (d % 10) :: midnightSuffix := rfl
      rw [hdf, parseIsoDue_cons]
      rw [digitChar_isDigit _ h1, digitChar_isDigit _ h2, digitChar_isDigit _ h3,
        digitChar_isDigit _ h4, digitChar_isDigit _ h5, digitChar_isDigit _ h6,
        digitChar_isDigit _ h7, digitChar_isDigit _ h8]
      rw [if_pos (by decide)]
      rw [digitChar_toNat _ h1, digitChar_toNat _ h2, digitChar_toNat _ h3,
        digitChar_toNat _ h4, digitChar_toNat _ h5, digitChar_toNat _ h6,
        digitChar_toNat _ h7, digitChar_toNat _ h8]
      have hyy : ((y / 1000 % 10 * 10 + y / 100 % 10) * 10 + y / 10 % 10) * 10 + y % 10 = y := by
        have q1 := Nat.div_add_mod y 10
        have q2 := Nat.div_add_mod (y / 10) 10
        have q3 := Nat.div_add_mod (y / 100) 10
        have r2 : y / 10 / 10 = y / 100 := by
          rw [Nat.div_div_eq_div_mul]
        have r3 : y / 100 / 10 = y / 1000 := by
          rw [Nat.div_div_eq_div_mul]
        have r4 : y / 1000 % 10 = y / 1000 := Nat.mod_eq_of_lt (by omega)
        omega
      have hmq : m / 10 % 10 * 10 + m % 10 = m := by
        have q1 := Nat.div_add_mod m 10
        have r1 : m / 10 % 10 = m / 10 := Nat.mod_eq_of_lt (by omega)
        omega
      have hd31 : daysInMonth y m ≤ 31 := by
        unfold daysInMonth
        split_ifs <;> omega
      have hdq : d / 10 % 10 * 10 + d % 10 = d := by
        have q1 := Nat.div_add_mod d 10
        have r1 : d / 10 % 10 = d / 10 := Nat.mod_eq_of_lt (by omega)
        omega
      rw [hyy, hmq, hdq]
      rw [if_pos ⟨hy1, hy2, hm1, hm2, hd1, hd2⟩]
    unfold displayDue
    rw [hrep, hone, hz, hparse]
  · intro s hp
    unfold displayDue
    rw [hp]

/-- Witness for C8: the leap day 2024-02-29 survives the store-display
roundtrip, and an unparseable stored value is displayed raw. -/
theorem due_date_roundtrip_witness :
    displayDue (toDueTimestamp (formatYMD 2024 2 29)) = formatYMD 2024 2 29
  ∧ displayDue "oops" = "oops" :=
  ⟨due_date_roundtrip.1 2024 2 29 (by decide) (by decide) (by decide) (by decide) (by decide)
      (by decide),
   due_date_roundtrip.2 "oops" (by decide)⟩
